import Mathlib

/-!
# Verification of `cdo_local_uuid` (`src/cdo_local_uuid/__init__.py`)

A shallow embedding of the `cdo_local_uuid` Python module and proofs of its
specified properties.  The module keeps two pieces of process-wide state
(`DEMO_UUID_BASE : Optional[str]`, `DEMO_UUID_COUNTER : int`) and exposes
`configure()`, `_demo_uuid()` and `local_uuid()`.

Modelling choices:
* Environment variables consulted by the module are a record of three
  `Option String` fields.
* Filesystem-dependent operations of `pathlib` (`exists()`, `is_dir()`,
  `resolve()`) are abstracted into a record of functions `Sys`; a resolved
  (canonical absolute) path is modelled as its list of path components below
  the root, which makes `Path.relative_to` (a purely lexical operation on
  resolved paths) a prefix computation.
* `uuid.uuid4()` / `uuid.uuid5(ns, name)` of the Python standard library are
  modelled symbolically by a constructor keeping the random entropy,
  respectively the namespace and hashed name: two name-based UUIDs built from
  the same namespace and name are equal, matching determinism of `uuid5`.
* Python exceptions are `Except.error`; a raising call still returns the
  module state as mutated up to the raise point.
* `str` on a nonnegative Python `int` is decimal rendering, `pyIntStr`.
-/

/-- Model of a Python UUID value as produced by this module: either a random
version-4 UUID (carrying the 122 random bits drawn from the OS as abstract
entropy) or the version-5 name-based UUID of a namespace and a name. -/
inductive PyUUID where
  | uuid4 (entropy : Nat)
  | uuid5 (ns : String) (name : String)
deriving DecidableEq

/-- The textual form of `uuid.NAMESPACE_URL`, the fixed URL-namespace UUID
`6ba7b811-9dad-11d1-80b4-00c04fd430c8` used by `_demo_uuid`. -/
def NAMESPACE_URL : String := "6ba7b811-9dad-11d1-80b4-00c04fd430c8"

/-- The environment variables read by the module (`os.getenv`). -/
structure Environ where
  CASE_DEMO_NONRANDOM_UUID_BASE : Option String
  DEMO_UUID_REQUESTING_NONRANDOM : Option String
  VIRTUAL_ENV : Option String
deriving DecidableEq

/-- The module-level mutable state: `DEMO_UUID_BASE` (initially `None`) and
`DEMO_UUID_COUNTER` (initially `0`, only ever incremented, hence a `Nat`). -/
structure ModuleState where
  DEMO_UUID_BASE : Option String
  DEMO_UUID_COUNTER : Nat
deriving DecidableEq

/-- The state at interpreter start: `DEMO_UUID_BASE = None`,
`DEMO_UUID_COUNTER = 0`. -/
def initialState : ModuleState :=
  { DEMO_UUID_BASE := none, DEMO_UUID_COUNTER := 0 }

/-- Filesystem-dependent path operations used by `configure`:
`Path(p).exists()`, `Path(p).is_dir()`, and `Path(p).resolve()` (the latter
returned as the component list of the canonical absolute path). -/
structure Sys where
  pathExists : String → Bool
  isDir : String → Bool
  resolve : String → List String

/-- Process-invocation context read by `configure`: the environment, the
present working directory (`os.getcwd()`), and the argument vector
(`sys.argv`, split into the command `argv0` and the remaining arguments). -/
structure ProcessContext where
  environ : Environ
  cwd : String
  argv0 : String
  argvRest : List String

/-- `Path.relative_to` on two resolved paths (component lists): the remainder
when `other` is an ancestor of (a prefix of, possibly all of) `self`,
otherwise `none` (Python raises `ValueError`). -/
def relative_to (self other : List String) : Option (List String) :=
  if other.isPrefixOf self then some (self.drop other.length) else none

/-- `str` of a relative `pathlib` path given by its components; the empty
remainder renders as `"."`. -/
def renderRelative (parts : List String) : String :=
  match parts with
  | [] => "."
  | _ => String.intercalate "/" parts

/-- `str` of a resolved absolute `pathlib` path given by its components. -/
def renderResolved (parts : List String) : String :=
  "/" ++ String.intercalate "/" parts

/-- `str` applied to a nonnegative Python `int`: standard decimal rendering,
most significant digit first. -/
def pyIntStr (n : Nat) : String :=
  if n = 0 then "0" else ((Nat.digits 10 n).reverse.map Nat.digitChar).asString

/-- The categories of the warnings `configure` can emit. -/
inductive WarningCategory where
  | FutureWarning
  | RuntimeWarning
deriving DecidableEq

/-- One warning emitted through `warnings.warn(message, category)`. -/
structure Warning where
  message : String
  category : WarningCategory
deriving DecidableEq

/-- Message of the deprecation warning for `DEMO_UUID_REQUESTING_NONRANDOM`. -/
def deprecatedMessage : String :=
  "Environment variable DEMO_UUID_REQUESTING_NONRANDOM is deprecated.  See case_utils.local_uuid._demo_uuid for usage notes on its replacement, CASE_DEMO_NONRANDOM_UUID_BASE.  Proceeding with random UUIDs."

/-- Message of the warning when `CASE_DEMO_NONRANDOM_UUID_BASE` does not exist. -/
def missingBaseMessage : String :=
  "Environment variable CASE_DEMO_NONRANDOM_UUID_BASE is expected to refer to an existing directory.  Proceeding with random UUIDs."

/-- Message of the warning when `CASE_DEMO_NONRANDOM_UUID_BASE` exists but is
not a directory. -/
def notDirMessage : String :=
  "Environment variable CASE_DEMO_NONRANDOM_UUID_BASE is expected to refer to a directory.  Proceeding with random UUIDs."

/-- Embedding of `configure()` (lines 42-116).  Returns the new module state
together with the list of warnings emitted during the call. -/
def configure (ctx : ProcessContext) (fs : Sys) (s : ModuleState) :
    ModuleState × List Warning :=
  if ctx.environ.DEMO_UUID_REQUESTING_NONRANDOM = some "NONRANDOM_REQUESTED" then
    (s, [⟨deprecatedMessage, WarningCategory.FutureWarning⟩])
  else
    match ctx.environ.CASE_DEMO_NONRANDOM_UUID_BASE with
    | none => (s, [])
    | some env_base_dir_name =>
      if fs.pathExists env_base_dir_name = false then
        (s, [⟨missingBaseMessage, WarningCategory.RuntimeWarning⟩])
      else if fs.isDir env_base_dir_name = false then
        (s, [⟨notDirMessage, WarningCategory.RuntimeWarning⟩])
      else
        let base_dir_resolved_path := fs.resolve env_base_dir_name
        let srcdir_resolved_path := fs.resolve ctx.cwd
        let cwdPart :=
          match relative_to srcdir_resolved_path base_dir_resolved_path with
          | some srcdir_relative_path => renderRelative srcdir_relative_path
          | none => renderResolved srcdir_resolved_path
        let commandPart :=
          match ctx.environ.VIRTUAL_ENV with
          | none => ctx.argv0
          | some env_venv_name =>
            let command_resolved_path := fs.resolve ctx.argv0
            let venv_resolved_path := fs.resolve env_venv_name
            match relative_to command_resolved_path venv_resolved_path with
            | some command_relative_path => renderRelative command_relative_path
            | none => renderResolved command_resolved_path
        let demo_uuid_base_parts :=
          ["example.org", cwdPart, commandPart] ++
            (if ctx.argvRest.length > 0 then ctx.argvRest else [])
        let newBase := String.intercalate "/" demo_uuid_base_parts
        ({ s with DEMO_UUID_BASE := some newBase }, [])

/-- Embedding of `_demo_uuid()` (lines 119-149).  Returns the result (the
UUID, or the message of the raised `ValueError`) together with the module
state as left by the call. -/
def _demo_uuid (env : Environ) (s : ModuleState) :
    Except String PyUUID × ModuleState :=
  match env.CASE_DEMO_NONRANDOM_UUID_BASE with
  | none =>
    (Except.error "demo_uuid() called without CASE_DEMO_NONRANDOM_UUID_BASE in environment.", s)
  | some _ =>
    match s.DEMO_UUID_BASE with
    | none => (Except.error "demo_uuid() called with DEMO_UUID_BASE unset.", s)
    | some base =>
      let counter := s.DEMO_UUID_COUNTER + 1
      (Except.ok (PyUUID.uuid5 NAMESPACE_URL
          (String.intercalate "/" [base, pyIntStr counter])),
        { s with DEMO_UUID_COUNTER := counter })

/-- Embedding of `local_uuid()` (lines 152-166); `entropy` stands for the
random bits `uuid.uuid4()` would draw on this call. -/
def local_uuid (env : Environ) (entropy : Nat) (s : ModuleState) :
    Except String PyUUID × ModuleState :=
  match s.DEMO_UUID_BASE with
  | none => (Except.ok (PyUUID.uuid4 entropy), s)
  | some _ => _demo_uuid env s

/-- `N` successive calls to `_demo_uuid()` from state `s`: the list of
results (cut short at the first raised exception, which propagates) and the
final module state. -/
def runDemoSeq (env : Environ) (s : ModuleState) :
    Nat → Except String (List PyUUID) × ModuleState
  | 0 => (Except.ok [], s)
  | n + 1 =>
    match _demo_uuid env s with
    | (Except.error m, s1) => (Except.error m, s1)
    | (Except.ok u, s1) =>
      match runDemoSeq env s1 n with
      | (Except.error m, s2) => (Except.error m, s2)
      | (Except.ok us, s2) => (Except.ok (u :: us), s2)

/-- Successive calls to `local_uuid()`, one per entry of `entropies` (the
random bits each `uuid.uuid4()` call would draw). -/
def runLocalSeq (env : Environ) (entropies : List Nat) (s : ModuleState) :
    Except String (List PyUUID) × ModuleState :=
  match entropies with
  | [] => (Except.ok [], s)
  | e :: rest =>
    match local_uuid env e s with
    | (Except.error m, s1) => (Except.error m, s1)
    | (Except.ok u, s1) =>
      match runLocalSeq env rest s1 with
      | (Except.error m, s2) => (Except.error m, s2)
      | (Except.ok us, s2) => (Except.ok (u :: us), s2)

/-- The pure function of the base string and the starting counter value that
the deterministic sequence is claimed to equal: the `i`-th identifier hashes
`base ++ "/" ++ str(c + i + 1)`. -/
def demoSpecSeq (base : String) (c : Nat) (n : Nat) : List PyUUID :=
  (List.range n).map fun i =>
    PyUUID.uuid5 NAMESPACE_URL (base ++ "/" ++ pyIntStr (c + i + 1))

example : pyIntStr 0 = "0" := by decide
example : relative_to ["a", "b", "c"] ["a"] = some ["b", "c"] := by decide
example : relative_to ["a", "b"] ["x"] = none := by decide

theorem intercalate_pair (a b : String) :
    String.intercalate "/" [a, b] = a ++ "/" ++ b := rfl

theorem string_append_cancel_left {a s t : String} (h : a ++ s = a ++ t) :
    s = t := by
  apply String.ext
  have hd := congrArg String.data h
  simp only [String.data_append] at hd
  exact List.append_cancel_left hd

theorem digitChar_inj_lt10 :
    ∀ a < 10, ∀ b < 10, Nat.digitChar a = Nat.digitChar b → a = b := by
  decide

theorem map_digitChar_inj :
    ∀ l1 l2 : List Nat, (∀ x ∈ l1, x < 10) → (∀ x ∈ l2, x < 10) →
      l1.map Nat.digitChar = l2.map Nat.digitChar → l1 = l2
  | [], [], _, _, _ => rfl
  | a :: l1, b :: l2, h1, h2, h => by
    simp only [List.map_cons, List.cons.injEq] at h
    have hab : a = b :=
      digitChar_inj_lt10 a (h1 a (List.mem_cons_self a l1))
        b (h2 b (List.mem_cons_self b l2)) h.1
    have htl : l1 = l2 :=
      map_digitChar_inj l1 l2 (fun x hx => h1 x (List.mem_cons_of_mem a hx))
        (fun x hx => h2 x (List.mem_cons_of_mem b hx)) h.2
    rw [hab, htl]

theorem demo_uuid_ok (env : Environ) (s : ModuleState) (e b : String)
    (he : env.CASE_DEMO_NONRANDOM_UUID_BASE = some e)
    (hb : s.DEMO_UUID_BASE = some b) :
    _demo_uuid env s =
      (Except.ok (PyUUID.uuid5 NAMESPACE_URL
          (b ++ "/" ++ pyIntStr (s.DEMO_UUID_COUNTER + 1))),
        { DEMO_UUID_BASE := some b,
          DEMO_UUID_COUNTER := s.DEMO_UUID_COUNTER + 1 }) := by
  cases s with
  | mk sb sc =>
    cases hb
    simp [_demo_uuid, he, intercalate_pair]

theorem demoSpecSeq_succ (b : String) (c n : Nat) :
    demoSpecSeq b c (n + 1) =
      PyUUID.uuid5 NAMESPACE_URL (b ++ "/" ++ pyIntStr (c + 1)) ::
        demoSpecSeq b (c + 1) n := by
  unfold demoSpecSeq
  rw [List.range_succ_eq_map]
  simp only [List.map_cons, List.map_map, Nat.add_zero]
  refine congrArg₂ _ rfl (List.map_congr_left fun i _ => ?_)
  have harg : c + (i + 1) + 1 = c + 1 + i + 1 := by omega
  simp [Function.comp, harg]

theorem runDemoSeq_eq (env : Environ) (e b : String)
    (he : env.CASE_DEMO_NONRANDOM_UUID_BASE = some e) :
    ∀ n c : Nat,
      runDemoSeq env ⟨some b, c⟩ n =
        (Except.ok (demoSpecSeq b c n), ⟨some b, c + n⟩)
  | 0, c => by simp [runDemoSeq, demoSpecSeq]
  | n + 1, c => by
    have h1 := demo_uuid_ok env ⟨some b, c⟩ e b he rfl
    have ih := runDemoSeq_eq env e b he n (c + 1)
    have hc : c + 1 + n = c + (n + 1) := by omega
    simp only [runDemoSeq, h1, ih, demoSpecSeq_succ, hc]

theorem pyIntStr_inj_pos {m n : Nat} (hm : m ≠ 0) (hn : n ≠ 0)
    (h : pyIntStr m = pyIntStr n) : m = n := by
  unfold pyIntStr at h
  rw [if_neg hm, if_neg hn] at h
  have hd : (Nat.digits 10 m).reverse.map Nat.digitChar =
      (Nat.digits 10 n).reverse.map Nat.digitChar := congrArg String.data h
  have hrev : (Nat.digits 10 m).reverse = (Nat.digits 10 n).reverse :=
    map_digitChar_inj _ _
      (fun x hx => Nat.digits_lt_base (by norm_num) (List.mem_reverse.mp hx))
      (fun x hx => Nat.digits_lt_base (by norm_num) (List.mem_reverse.mp hx)) hd
  exact Nat.digits_inj_iff.mp (List.reverse_injective hrev)

theorem runLocalSeq_random (env : Environ) :
    ∀ (es : List Nat) (s : ModuleState), s.DEMO_UUID_BASE = none →
      runLocalSeq env es s = (Except.ok (es.map PyUUID.uuid4), s)
  | [], s, _ => by simp [runLocalSeq]
  | e :: rest, s, hb => by
    have h1 : local_uuid env e s = (Except.ok (PyUUID.uuid4 e), s) := by
      obtain ⟨sb, sc⟩ := s
      cases hb
      simp [local_uuid]
    have ih := runLocalSeq_random env rest s hb
    simp [runLocalSeq, h1, ih]

theorem string_join_counter_inj {b : String} {x y : Nat} (hx : x ≠ 0)
    (hy : y ≠ 0) (h : b ++ "/" ++ pyIntStr x = b ++ "/" ++ pyIntStr y) :
    x = y :=
  pyIntStr_inj_pos hx hy (string_append_cancel_left h)

/-- The working-directory component of the base string as the claim words it:
the working directory rendered relative to the resolved base directory when
the base directory is an ancestor of the resolved working directory,
otherwise the absolute resolved working directory. -/
def specCwdComponent (fs : Sys) (ctx : ProcessContext) (d : String) : String :=
  if (fs.resolve d).isPrefixOf (fs.resolve ctx.cwd) then
    renderRelative ((fs.resolve ctx.cwd).drop (fs.resolve d).length)
  else
    renderResolved (fs.resolve ctx.cwd)

/-- The command component of the base string as the claim words it: relative
to the resolved `VIRTUAL_ENV` location when that variable is set and is an
ancestor of the resolved command path; the resolved absolute command path
when `VIRTUAL_ENV` is set but not an ancestor; the raw invoked command string
when `VIRTUAL_ENV` is unset. -/
def specCommandComponent (fs : Sys) (ctx : ProcessContext) : String :=
  match ctx.environ.VIRTUAL_ENV with
  | none => ctx.argv0
  | some v =>
    if (fs.resolve v).isPrefixOf (fs.resolve ctx.argv0) then
      renderRelative ((fs.resolve ctx.argv0).drop (fs.resolve v).length)
    else
      renderResolved (fs.resolve ctx.argv0)

theorem relative_or_absolute (A B : List String)
    (frel : List String → String) (fabs : String) :
    (match relative_to A B with
      | some r => frel r
      | none => fabs) =
    if B.isPrefixOf A then frel (A.drop B.length) else fabs := by
  unfold relative_to
  by_cases h : B.isPrefixOf A <;> simp [h]

/-- A filesystem on which no path exists. -/
def fsNone : Sys :=
  { pathExists := fun _ => false, isDir := fun _ => false,
    resolve := fun _ => [] }

/-- A filesystem on which every path is an existing directory resolving to
the root. -/
def fsAll : Sys :=
  { pathExists := fun _ => true, isDir := fun _ => true,
    resolve := fun _ => [] }

/-- Claim C1: with `DEMO_UUID_BASE` set and the opt-in environment variable
present, each `_demo_uuid()` call increments the counter by exactly 1 and
returns the version-5 UUID over the URL namespace of
`base ++ "/" ++ str(counter)` with the post-increment counter; hence `n`
successive calls yield the sequence `demoSpecSeq base counter n`, a pure
function of the base string and the starting counter value, reproduced by any
run from the same base string and counter. -/
theorem demo_uuid_deterministic_sequence (env : Environ) (s : ModuleState)
    (e b : String) (n : Nat)
    (he : env.CASE_DEMO_NONRANDOM_UUID_BASE = some e)
    (hb : s.DEMO_UUID_BASE = some b) :
    _demo_uuid env s =
      (Except.ok (PyUUID.uuid5 NAMESPACE_URL
          (b ++ "/" ++ pyIntStr (s.DEMO_UUID_COUNTER + 1))),
        { DEMO_UUID_BASE := some b,
          DEMO_UUID_COUNTER := s.DEMO_UUID_COUNTER + 1 }) ∧
    runDemoSeq env s n =
      (Except.ok (demoSpecSeq b s.DEMO_UUID_COUNTER n),
        { DEMO_UUID_BASE := some b,
          DEMO_UUID_COUNTER := s.DEMO_UUID_COUNTER + n }) := by
  obtain ⟨sb, sc⟩ := s
  cases hb
  exact ⟨demo_uuid_ok env ⟨some b, sc⟩ e b he rfl, runDemoSeq_eq env e b he n sc⟩

theorem demo_uuid_deterministic_sequence_witness :
    runDemoSeq ⟨some "/tmp/work", none, none⟩
        ⟨some "example.org/sub/tool", 0⟩ 2 =
      (Except.ok (demoSpecSeq "example.org/sub/tool" 0 2),
        ⟨some "example.org/sub/tool", 2⟩) :=
  (demo_uuid_deterministic_sequence ⟨some "/tmp/work", none, none⟩
    ⟨some "example.org/sub/tool", 0⟩ "/tmp/work" "example.org/sub/tool" 2
    rfl rfl).2

/-- Claim C2: `_demo_uuid()` invoked with `CASE_DEMO_NONRANDOM_UUID_BASE`
absent from the environment, or with `DEMO_UUID_BASE` unset, raises a
`ValueError` with a descriptive message rather than returning an
identifier. -/
theorem demo_uuid_rejects_unarmed (env : Environ) (s : ModuleState)
    (h : env.CASE_DEMO_NONRANDOM_UUID_BASE = none ∨ s.DEMO_UUID_BASE = none) :
    ∃ msg : String, (_demo_uuid env s).1 = Except.error msg := by
  rcases h with h | h
  · exact ⟨"demo_uuid() called without CASE_DEMO_NONRANDOM_UUID_BASE in environment.",
      by simp [_demo_uuid, h]⟩
  · cases henv : env.CASE_DEMO_NONRANDOM_UUID_BASE with
    | none =>
      exact ⟨"demo_uuid() called without CASE_DEMO_NONRANDOM_UUID_BASE in environment.",
        by simp [_demo_uuid, henv]⟩
    | some e =>
      exact ⟨"demo_uuid() called with DEMO_UUID_BASE unset.",
        by simp [_demo_uuid, henv, h]⟩

theorem demo_uuid_rejects_unarmed_witness :
    (Environ.mk none none none).CASE_DEMO_NONRANDOM_UUID_BASE = none ∧
      ∃ msg : String,
        (_demo_uuid ⟨none, none, none⟩ initialState).1 = Except.error msg :=
  ⟨rfl, demo_uuid_rejects_unarmed ⟨none, none, none⟩ initialState (Or.inl rfl)⟩

/-- Claim C6: in deterministic mode (base string set, opt-in variable
present), the sequence of identifiers produced by `n` successive generation
calls contains no repeat: entries at distinct positions differ, because the
counter value joined into the hashed string differs each time. -/
theorem demo_sequence_no_repeat (env : Environ) (s : ModuleState)
    (e b : String) (n : Nat)
    (he : env.CASE_DEMO_NONRANDOM_UUID_BASE = some e)
    (hb : s.DEMO_UUID_BASE = some b) :
    ∃ us : List PyUUID, (runDemoSeq env s n).1 = Except.ok us ∧
      us.length = n ∧
      ∀ (i j : Nat) (hi : i < us.length) (hj : j < us.length),
        i ≠ j → us[i] ≠ us[j] := by
  obtain ⟨sb, sc⟩ := s
  cases hb
  refine ⟨demoSpecSeq b sc n, by rw [runDemoSeq_eq env e b he n sc], ?_, ?_⟩
  · simp [demoSpecSeq]
  · intro i j hi hj hne heq
    have hlen : (demoSpecSeq b sc n).length = n := by simp [demoSpecSeq]
    have hgi : (demoSpecSeq b sc n)[i] =
        PyUUID.uuid5 NAMESPACE_URL (b ++ "/" ++ pyIntStr (sc + i + 1)) := by
      simp [demoSpecSeq]
    have hgj : (demoSpecSeq b sc n)[j] =
        PyUUID.uuid5 NAMESPACE_URL (b ++ "/" ++ pyIntStr (sc + j + 1)) := by
      simp [demoSpecSeq]
    rw [hgi, hgj] at heq
    simp only [PyUUID.uuid5.injEq] at heq
    have := string_join_counter_inj (b := b)
      (by omega : sc + i + 1 ≠ 0) (by omega : sc + j + 1 ≠ 0) heq.2
    omega

/-- Claim C3 counterexample: in the state where `DEMO_UUID_BASE` is set but
`CASE_DEMO_NONRANDOM_UUID_BASE` is no longer present in the environment,
`local_uuid()` does not return an identifier: it propagates the
`ValueError` raised by `_demo_uuid()`. -/
theorem local_uuid_raises_counterexample :
    (local_uuid ⟨none, none, none⟩ 0 ⟨some "example.org/sub/tool", 0⟩).1 =
      Except.error
        "demo_uuid() called without CASE_DEMO_NONRANDOM_UUID_BASE in environment." :=
  rfl

/-- Claim C3 (amended): `local_uuid()` never raises whenever
`DEMO_UUID_BASE` is unset, returning a random version-4 identifier and
leaving the state unchanged; when `DEMO_UUID_BASE` is set it returns an
identifier provided `CASE_DEMO_NONRANDOM_UUID_BASE` is present in the
environment, and raises the `ValueError` of `_demo_uuid()` when that
variable is absent. -/
theorem local_uuid_cases (env : Environ) (entropy : Nat) (s : ModuleState) :
    (s.DEMO_UUID_BASE = none →
      local_uuid env entropy s = (Except.ok (PyUUID.uuid4 entropy), s)) ∧
    (s.DEMO_UUID_BASE ≠ none → env.CASE_DEMO_NONRANDOM_UUID_BASE ≠ none →
      ∃ u : PyUUID, (local_uuid env entropy s).1 = Except.ok u) ∧
    (s.DEMO_UUID_BASE ≠ none → env.CASE_DEMO_NONRANDOM_UUID_BASE = none →
      (local_uuid env entropy s).1 =
        Except.error
          "demo_uuid() called without CASE_DEMO_NONRANDOM_UUID_BASE in environment.") := by
  refine ⟨fun hb => ?_, fun hb he => ?_, fun hb he => ?_⟩
  · obtain ⟨sb, sc⟩ := s
    cases hb
    simp [local_uuid]
  · obtain ⟨b, hb⟩ := Option.ne_none_iff_exists'.mp hb
    obtain ⟨e, he⟩ := Option.ne_none_iff_exists'.mp he
    refine ⟨PyUUID.uuid5 NAMESPACE_URL
      (b ++ "/" ++ pyIntStr (s.DEMO_UUID_COUNTER + 1)), ?_⟩
    obtain ⟨sb, sc⟩ := s
    cases hb
    simp [local_uuid, demo_uuid_ok env ⟨some b, sc⟩ e b he rfl]
  · obtain ⟨b, hb⟩ := Option.ne_none_iff_exists'.mp hb
    obtain ⟨sb, sc⟩ := s
    cases hb
    simp [local_uuid, _demo_uuid, he]

theorem local_uuid_cases_witness :
    local_uuid ⟨none, none, none⟩ 5 initialState =
      (Except.ok (PyUUID.uuid4 5), initialState) :=
  (local_uuid_cases ⟨none, none, none⟩ 5 initialState).1 rfl

/-- Claim C4: while `DEMO_UUID_BASE` is unset, every `local_uuid()` call
returns a random version-4 identifier and leaves the module state unchanged;
in particular the counter keeps its prior value (0 from the initial state)
however many such calls are made. -/
theorem random_mode_no_side_effect (env : Environ) (entropies : List Nat)
    (s : ModuleState) (hb : s.DEMO_UUID_BASE = none) :
    runLocalSeq env entropies s =
      (Except.ok (entropies.map PyUUID.uuid4), s) ∧
    (runLocalSeq env entropies s).2.DEMO_UUID_COUNTER = s.DEMO_UUID_COUNTER := by
  have h := runLocalSeq_random env entropies s hb
  exact ⟨h, by rw [h]⟩

theorem random_mode_no_side_effect_witness :
    runLocalSeq ⟨none, none, none⟩ [7, 8, 9] initialState =
      (Except.ok [PyUUID.uuid4 7, PyUUID.uuid4 8, PyUUID.uuid4 9],
        initialState) :=
  (random_mode_no_side_effect ⟨none, none, none⟩ [7, 8, 9] initialState rfl).1

/-- Claim C10: when `_demo_uuid()` raises, the module state is unchanged:
both precondition checks precede the counter increment, so
`DEMO_UUID_COUNTER` retains exactly its prior value after the error, from
every starting state. -/
theorem demo_uuid_error_state_unchanged (env : Environ) (s : ModuleState)
    (msg : String) (h : (_demo_uuid env s).1 = Except.error msg) :
    (_demo_uuid env s).2 = s := by
  cases henv : env.CASE_DEMO_NONRANDOM_UUID_BASE with
  | none => simp [_demo_uuid, henv]
  | some e =>
    cases hb : s.DEMO_UUID_BASE with
    | none => simp [_demo_uuid, henv, hb]
    | some b =>
      rw [demo_uuid_ok env s e b henv hb] at h
      exact absurd h (by simp)

theorem demo_uuid_error_state_unchanged_witness :
    (_demo_uuid ⟨none, none, none⟩ ⟨some "example.org/sub/tool", 5⟩).2 =
      ⟨some "example.org/sub/tool", 5⟩ :=
  demo_uuid_error_state_unchanged ⟨none, none, none⟩
    ⟨some "example.org/sub/tool", 5⟩
    "demo_uuid() called without CASE_DEMO_NONRANDOM_UUID_BASE in environment."
    rfl

theorem demo_sequence_no_repeat_witness :
    ∃ us : List PyUUID,
      (runDemoSeq ⟨some "/tmp/work", none, none⟩
          ⟨some "example.org/sub/tool", 0⟩ 3).1 = Except.ok us ∧
      us.length = 3 ∧
      ∀ (i j : Nat) (hi : i < us.length) (hj : j < us.length),
        i ≠ j → us[i] ≠ us[j] :=
  demo_sequence_no_repeat ⟨some "/tmp/work", none, none⟩
    ⟨some "example.org/sub/tool", 0⟩ "/tmp/work" "example.org/sub/tool" 3
    rfl rfl

/-- Claim C5: when the base-directory variable names an existing directory
and the deprecated variable is not triggering, `configure()` stores as
`DEMO_UUID_BASE` the `"/"`-join of, in order: the literal `"example.org"`,
the working-directory component, the command component, and every
command-line argument beyond the command, each as its own component. -/
theorem configure_base_string (ctx : ProcessContext) (fs : Sys)
    (s : ModuleState) (d : String)
    (hdep : ctx.environ.DEMO_UUID_REQUESTING_NONRANDOM ≠
      some "NONRANDOM_REQUESTED")
    (hcase : ctx.environ.CASE_DEMO_NONRANDOM_UUID_BASE = some d)
    (hex : fs.pathExists d = true) (hdir : fs.isDir d = true) :
    (configure ctx fs s).1.DEMO_UUID_BASE =
      some (String.intercalate "/"
        (["example.org", specCwdComponent fs ctx d,
          specCommandComponent fs ctx] ++ ctx.argvRest)) := by
  have hargs : (if ctx.argvRest.length > 0 then ctx.argvRest else []) =
      ctx.argvRest := by
    cases ctx.argvRest <;> simp
  simp only [configure, if_neg hdep, hcase, hex, hdir,
    Bool.true_eq_false, if_false, hargs, relative_or_absolute,
    specCwdComponent, specCommandComponent]

theorem configure_base_string_witness :
    (configure ⟨⟨some "/tmp/work", none, none⟩, "/tmp/work/sub",
        "/usr/bin/tool", ["run"]⟩
      { pathExists := fun _ => true, isDir := fun _ => true,
        resolve := fun p => if p = "/tmp/work" then ["tmp", "work"]
          else ["tmp", "work", "sub"] }
      initialState).1.DEMO_UUID_BASE =
      some (String.intercalate "/"
        (["example.org",
          specCwdComponent
            { pathExists := fun _ => true, isDir := fun _ => true,
              resolve := fun p => if p = "/tmp/work" then ["tmp", "work"]
                else ["tmp", "work", "sub"] }
            ⟨⟨some "/tmp/work", none, none⟩, "/tmp/work/sub",
              "/usr/bin/tool", ["run"]⟩ "/tmp/work",
          specCommandComponent
            { pathExists := fun _ => true, isDir := fun _ => true,
              resolve := fun p => if p = "/tmp/work" then ["tmp", "work"]
                else ["tmp", "work", "sub"] }
            ⟨⟨some "/tmp/work", none, none⟩, "/tmp/work/sub",
              "/usr/bin/tool", ["run"]⟩] ++ ["run"])) :=
  configure_base_string
    ⟨⟨some "/tmp/work", none, none⟩, "/tmp/work/sub", "/usr/bin/tool",
      ["run"]⟩
    { pathExists := fun _ => true, isDir := fun _ => true,
      resolve := fun p => if p = "/tmp/work" then ["tmp", "work"]
        else ["tmp", "work", "sub"] }
    initialState "/tmp/work" (by simp) rfl rfl rfl

/-- Claim C7 counterexample: when the deprecated variable carries its
sentinel and `CASE_DEMO_NONRANDOM_UUID_BASE` is absent, `configure()` emits
a warning, contradicting the claim that an absent base-directory variable
means no warning is emitted. -/
theorem configure_case_absent_warning_counterexample :
    (Environ.mk none (some "NONRANDOM_REQUESTED") none).CASE_DEMO_NONRANDOM_UUID_BASE
        = none ∧
      (configure ⟨⟨none, some "NONRANDOM_REQUESTED", none⟩, "/tmp", "tool", []⟩
          fsNone initialState).2 ≠ [] := by
  constructor
  · rfl
  · intro h
    simpa [configure, fsNone] using congrArg List.length h

/-- Claim C7 (amended): `configure()` never raises; provided the deprecated
variable is not carrying its sentinel value: if
`CASE_DEMO_NONRANDOM_UUID_BASE` is absent, `configure()` leaves the state
unchanged (so `DEMO_UUID_BASE` stays unset) and emits no warning; if the
variable is present but does not name an existing directory, `configure()`
emits exactly one `RuntimeWarning` and leaves the state unchanged; in both
cases subsequent generation behaves as in the unconfigured case. -/
theorem configure_degrades_safely (ctx : ProcessContext) (fs : Sys)
    (s : ModuleState)
    (hdep : ctx.environ.DEMO_UUID_REQUESTING_NONRANDOM ≠
      some "NONRANDOM_REQUESTED") :
    (ctx.environ.CASE_DEMO_NONRANDOM_UUID_BASE = none →
      configure ctx fs s = (s, [])) ∧
    (∀ d, ctx.environ.CASE_DEMO_NONRANDOM_UUID_BASE = some d →
      (fs.pathExists d = false ∨ fs.isDir d = false) →
      (configure ctx fs s).1 = s ∧
      ∃ w : Warning, (configure ctx fs s).2 = [w] ∧
        w.category = WarningCategory.RuntimeWarning) := by
  constructor
  · intro hcase
    simp [configure, if_neg hdep, hcase]
  · intro d hcase hbad
    by_cases hex : fs.pathExists d = false
    · refine ⟨?_, ⟨⟨missingBaseMessage, WarningCategory.RuntimeWarning⟩, ?_, rfl⟩⟩ <;>
        simp [configure, if_neg hdep, hcase, hex]
    · have hdir : fs.isDir d = false := by
        rcases hbad with h | h
        · exact absurd h hex
        · exact h
      refine ⟨?_, ⟨⟨notDirMessage, WarningCategory.RuntimeWarning⟩, ?_, rfl⟩⟩ <;>
        simp [configure, if_neg hdep, hcase, hex, hdir]

theorem configure_degrades_safely_witness :
    configure ⟨⟨none, none, none⟩, "/tmp", "tool", []⟩ fsNone initialState =
      (initialState, []) :=
  (configure_degrades_safely ⟨⟨none, none, none⟩, "/tmp", "tool", []⟩ fsNone
    initialState (by simp)).1 rfl

/-- Claim C8: when `DEMO_UUID_REQUESTING_NONRANDOM` carries the sentinel
`"NONRANDOM_REQUESTED"`, `configure()` emits the deprecation warning (a
`FutureWarning`) and leaves the state unchanged, so `DEMO_UUID_BASE` stays
unset; this check precedes every other, so it holds for every value of the
base-directory variable and of the filesystem. -/
theorem configure_deprecated_var (ctx : ProcessContext) (fs : Sys)
    (s : ModuleState)
    (h : ctx.environ.DEMO_UUID_REQUESTING_NONRANDOM =
      some "NONRANDOM_REQUESTED") :
    configure ctx fs s =
      (s, [⟨deprecatedMessage, WarningCategory.FutureWarning⟩]) := by
  simp [configure, h]

theorem configure_deprecated_var_witness :
    configure ⟨⟨some "/tmp/work", some "NONRANDOM_REQUESTED", none⟩,
        "/tmp/work", "tool", []⟩ fsAll initialState =
      (initialState, [⟨deprecatedMessage, WarningCategory.FutureWarning⟩]) :=
  configure_deprecated_var
    ⟨⟨some "/tmp/work", some "NONRANDOM_REQUESTED", none⟩, "/tmp/work",
      "tool", []⟩ fsAll initialState rfl

/-- Claim C9: `configure()` never modifies `DEMO_UUID_COUNTER`, and for an
unchanged context (environment, working directory, argument vector,
filesystem) a second call to `configure()` recomputes and stores the same
`DEMO_UUID_BASE` as the first call. -/
theorem configure_idempotent_counter_framed (ctx : ProcessContext) (fs : Sys)
    (s : ModuleState) :
    (configure ctx fs s).1.DEMO_UUID_COUNTER = s.DEMO_UUID_COUNTER ∧
    (configure ctx fs ((configure ctx fs s).1)).1.DEMO_UUID_BASE =
      (configure ctx fs s).1.DEMO_UUID_BASE := by
  by_cases hdep : ctx.environ.DEMO_UUID_REQUESTING_NONRANDOM =
      some "NONRANDOM_REQUESTED"
  · simp [configure, hdep]
  · cases hcase : ctx.environ.CASE_DEMO_NONRANDOM_UUID_BASE with
    | none => simp [configure, if_neg hdep, hcase]
    | some d =>
      by_cases hex : fs.pathExists d = false
      · simp [configure, if_neg hdep, hcase, hex]
      · by_cases hdir : fs.isDir d = false
        · simp [configure, if_neg hdep, hcase, hex, hdir]
        · simp [configure, if_neg hdep, hcase, hex, hdir]
